import Mathlib

/-!
Shallow embedding of the CyclingOnion outfit optimizer
(`src/wardrobe.py`, `src/outfitter.py`).

Python floats are modelled as rationals (`ℚ`), Python lists as `List`,
the Python `dict` lookup `all_items[body_part]` as an `Option`-returning
lookup (a missing key raises `KeyError`, embedded as `none`), and the
Python indexing `combo[0]` on a possibly-empty list as `List.head?`.
-/

/-- `BodyPart` enum of `wardrobe.py`. -/
inductive BodyPart where
  | UPPER
  | LOWER
  | HANDS
  | FEET
  | HEAD
deriving DecidableEq, Repr

/-- `LayerType` enum of `wardrobe.py`. -/
inductive LayerType where
  | ACCESSORY
  | INNER
  | MID
  | OUTER
deriving DecidableEq, Repr

/-- The `value` of each `LayerType` enum member (its position ordinal). -/
def LayerType.value : LayerType → Nat
  | .ACCESSORY => 0
  | .INNER => 1
  | .MID => 2
  | .OUTER => 3

/-- The `Clothing` dataclass of `wardrobe.py`, with the same field
defaults (`main_comfort_min = 50`, `main_comfort_max = 0`, shifts and
`wind_boost` 0, flags `False`, `complexity = 1.0`). -/
structure Clothing where
  name : String
  layer_type : LayerType
  body_part : BodyPart
  main_comfort_min : ℚ := 50
  main_comfort_max : ℚ := 0
  temp_shift_min : ℚ := 0
  temp_shift_max : ℚ := 0
  wind_boost : ℚ := 0
  waterproof : Bool := false
  windproof : Bool := false
  removable : Bool := false
  complexity : ℚ := 1
deriving DecidableEq, Repr

/-- `Clothing.get_discomfort` of `wardrobe.py`: the discomfort score of an
item under conditions `temp_min`, `temp_max`, `rain_prob`, `wind_speed`
and ride length `duration_hours`.  The cold/warm branch is the sequential
`if`/`elif` of the source: the warm penalty is only computed when the cold
branch did not fire. -/
def Clothing.get_discomfort (self : Clothing) (temp_min temp_max rain_prob wind_speed : ℚ)
    (duration_hours : ℤ) : ℚ :=
  let cold_penalty : ℚ :=
    if temp_min < self.main_comfort_min then (self.main_comfort_min - temp_min) ^ 2 else 0
  let warm_penalty : ℚ :=
    if temp_min < self.main_comfort_min then 0
    else if temp_max > self.main_comfort_max then (temp_max - self.main_comfort_max) ^ 2 else 0
  let cold_scaled : ℚ := cold_penalty * (33 / 100 + (duration_hours : ℚ) / 3)
  let rain_penalty : ℚ := if !self.waterproof then 3 / 4 * rain_prob else 0
  let wind_penalty : ℚ := if !self.windproof then 1 / 2 * wind_speed else 0
  let remove_bonus : ℚ := if self.removable then -(9 / 2) else 0
  let complexity_penalty : ℚ := 5 * self.complexity
  cold_scaled + warm_penalty + rain_penalty + wind_penalty + complexity_penalty + remove_bonus

/-- The inner-to-outer ordering used by `sorted(..., key=lambda x: x.layer_type.value)`. -/
def layer_le (a b : Clothing) : Prop :=
  a.layer_type.value ≤ b.layer_type.value

instance layer_le_dec : DecidableRel layer_le := fun a b =>
  inferInstanceAs (Decidable (a.layer_type.value ≤ b.layer_type.value))

/-- `ClothingCombo.get_clothing_item_equivalent` of `wardrobe.py`:
compose a combination (the `combo_items` list of the dataclass) into a
single equivalent `Clothing`.  The Python `sorted_layers[-1]` on an
empty list raises `IndexError`, embedded as `none`; `x or default`
substitutes the default exactly when `x` is falsy, i.e. equals `0`. -/
def ClothingCombo.get_clothing_item_equivalent (combo_items : List Clothing) : Option Clothing :=
  let sorted_layers := List.insertionSort layer_le combo_items
  match sorted_layers.getLast? with
  | none => none
  | some outer =>
    let rest := sorted_layers.dropLast
    let eff_min : ℚ :=
      (if outer.main_comfort_min = 0 then 15 else outer.main_comfort_min)
        + (rest.map (fun i => i.temp_shift_min)).sum
    let eff_max : ℚ :=
      (if outer.main_comfort_max = 0 then 35 else outer.main_comfort_max)
        + (rest.map (fun i => i.temp_shift_max)).sum
    let wind_boost : ℚ := outer.wind_boost + (rest.map (fun i => i.wind_boost)).sum
    let waterproof : Bool := outer.waterproof || rest.any (fun i => i.waterproof)
    let windproof0 : Bool := outer.windproof || rest.any (fun i => i.windproof)
    let windproof : Bool := if wind_boost ≥ 9 / 10 then true else windproof0
    let complexity : ℚ := outer.complexity + (rest.map (fun i => i.complexity)).sum
    let removable : Bool := outer.removable || rest.any (fun i => i.removable)
    let combo_name := String.intercalate " + " (sorted_layers.map (fun i => i.name))
    some { name := combo_name
           layer_type := outer.layer_type
           body_part := outer.body_part
           main_comfort_min := eff_min
           main_comfort_max := eff_max
           temp_shift_min := 0
           temp_shift_max := 0
           wind_boost := wind_boost
           waterproof := waterproof
           windproof := windproof
           removable := removable
           complexity := complexity }

/-- `ClothingWardrobe.grouped_clothing_items` restricted to one key: the
list the Python `dict` holds for `body_part` (insertion order preserved,
so it is the catalog filtered to that part). -/
def ClothingWardrobe.grouped_clothing_items (clothing_items : List Clothing)
    (body_part : BodyPart) : List Clothing :=
  clothing_items.filter (fun item => item.body_part = body_part)

/-- The enumeration `for r in range(1, len(items)+1): for c in combinations(items, r)`:
all non-empty subsets (as order-preserving sublists), grouped by size. -/
def candidate_subsets (items : List Clothing) : List (List Clothing) :=
  (List.range items.length).flatMap (fun r => List.sublistsLen (r + 1) items)

/-- The three validity filters of `valid_combinations_for_part`:
at most one OUTER / MID / INNER, at least one MID-or-OUTER "main", and
an OUTER requires an INNER or MID underneath. -/
def valid_combo_filter (clothing_combo : List Clothing) : Bool :=
  let outers := clothing_combo.filter (fun c => c.layer_type = LayerType.OUTER)
  let mids := clothing_combo.filter (fun c => c.layer_type = LayerType.MID)
  let inners := clothing_combo.filter (fun c => c.layer_type = LayerType.INNER)
  if outers.length > 1 || mids.length > 1 || inners.length > 1 then false
  else if !(clothing_combo.any (fun c =>
      c.layer_type = LayerType.MID ∨ c.layer_type = LayerType.OUTER)) then false
  else if outers.length = 1 && inners.length < 1 && mids.length < 1 then false
  else true

/-- The subsets surviving the validity filters, before composition. -/
def accepted_subsets (items : List Clothing) : List (List Clothing) :=
  (candidate_subsets items).filter valid_combo_filter

/-- `ClothingWardrobe.valid_combinations_for_part` of `wardrobe.py`.
The Python `all_items[body_part]` raises `KeyError` when no catalog item
has that body part (the `dict` then has no such key); this is embedded
as `none`.  Otherwise each surviving subset is composed via
`get_clothing_item_equivalent`. -/
def ClothingWardrobe.valid_combinations_for_part (clothing_items : List Clothing)
    (body_part : BodyPart) : Option (List Clothing) :=
  let items := ClothingWardrobe.grouped_clothing_items clothing_items body_part
  if items = [] then none
  else some ((accepted_subsets items).filterMap ClothingCombo.get_clothing_item_equivalent)

/-- The `WARDROBE` catalog constant of `wardrobe.py`: the full reference
catalog, one record per line of the source. -/
def WARDROBE : List Clothing := [
  { name := "Sweat Base", layer_type := .INNER, body_part := .UPPER,
    temp_shift_min := -3, temp_shift_max := 0, removable := false, complexity := 1/2 },
  { name := "Thermal Base Long", layer_type := .INNER, body_part := .UPPER,
    temp_shift_min := -6, temp_shift_max := -5, removable := false, complexity := 3/2 },
  { name := "Merino Base Long", layer_type := .INNER, body_part := .UPPER,
    temp_shift_min := -5, temp_shift_max := -1, removable := false, complexity := 0 },
  { name := "Jersey", layer_type := .MID, body_part := .UPPER,
    main_comfort_min := 20, main_comfort_max := 30, temp_shift_min := 0, temp_shift_max := -1 },
  { name := "Thermal Jersey", layer_type := .MID, body_part := .UPPER,
    main_comfort_min := 15, main_comfort_max := 18, temp_shift_min := -4, temp_shift_max := -5,
    wind_boost := 1/2, removable := false, complexity := 2 },
  { name := "Arm Warmers", layer_type := .ACCESSORY, body_part := .UPPER,
    temp_shift_min := -3, temp_shift_max := -2, wind_boost := 1/2, removable := true },
  { name := "Wind Jacket", layer_type := .OUTER, body_part := .UPPER,
    main_comfort_min := 15, main_comfort_max := 20, windproof := true, removable := true },
  { name := "Sportful Total Comfort Winter Jacket", layer_type := .OUTER, body_part := .UPPER,
    main_comfort_min := 10, main_comfort_max := 15, windproof := true, waterproof := true,
    complexity := 5/2 },
  { name := "Short Bibs", layer_type := .MID, body_part := .LOWER,
    main_comfort_min := 15, main_comfort_max := 35 },
  { name := "Sportful Fiandre Bibshort", layer_type := .MID, body_part := .LOWER,
    main_comfort_min := 9, main_comfort_max := 22, temp_shift_min := -3, temp_shift_max := -4,
    waterproof := true },
  { name := "Sportful Fiandre Long Bibs", layer_type := .MID, body_part := .LOWER,
    main_comfort_min := 6, main_comfort_max := 15, temp_shift_min := -6, wind_boost := 1/2,
    temp_shift_max := -7, waterproof := true },
  { name := "Winter Bibs", layer_type := .OUTER, body_part := .LOWER,
    main_comfort_min := 3, main_comfort_max := 10, waterproof := true, windproof := true,
    complexity := 3/2 },
  { name := "Leg Warmers", layer_type := .ACCESSORY, body_part := .LOWER,
    temp_shift_min := -3, temp_shift_max := -4, removable := true },
  { name := "Cycling Socks", layer_type := .INNER, body_part := .FEET,
    temp_shift_min := -1, complexity := -1 },
  { name := "Thermal Socks", layer_type := .INNER, body_part := .FEET,
    temp_shift_min := -5, temp_shift_max := -2, complexity := -1 },
  { name := "Cycling Shoes", layer_type := .MID, body_part := .FEET,
    main_comfort_min := 18, main_comfort_max := 28, wind_boost := 1/2 },
  { name := "Winter Shoes", layer_type := .OUTER, body_part := .FEET,
    main_comfort_min := 8, main_comfort_max := 15, waterproof := true, windproof := true,
    complexity := 2 },
  { name := "Toe Covers", layer_type := .ACCESSORY, body_part := .FEET,
    temp_shift_min := -2, temp_shift_max := -1, wind_boost := 1/2, waterproof := false,
    removable := true, complexity := 1/2 },
  { name := "Shoe Covers", layer_type := .ACCESSORY, body_part := .FEET,
    temp_shift_min := -4, temp_shift_max := -2, windproof := true, waterproof := true,
    removable := true, complexity := 3/4 },
  { name := "Short Gloves", layer_type := .MID, body_part := .HANDS,
    main_comfort_min := 16, main_comfort_max := 35, removable := true },
  { name := "Light Gloves", layer_type := .MID, body_part := .HANDS,
    main_comfort_min := 10, main_comfort_max := 23, temp_shift_min := -2, temp_shift_max := -1,
    removable := true, complexity := 1 },
  { name := "Thermal Gloves", layer_type := .OUTER, body_part := .HANDS,
    main_comfort_min := 2, main_comfort_max := 14, waterproof := true, windproof := true,
    removable := true, complexity := 5/2 },
  { name := "Bare Hands", layer_type := .MID, body_part := .HANDS,
    main_comfort_min := 18, main_comfort_max := 40 },
  { name := "Sportful Thermal Headband", layer_type := .MID, body_part := .HEAD,
    main_comfort_min := 5, main_comfort_max := 18, windproof := true, waterproof := true,
    removable := true },
  { name := "Cap", layer_type := .MID, body_part := .HEAD,
    main_comfort_min := 0, main_comfort_max := 15, windproof := true },
  { name := "Bare Head", layer_type := .MID, body_part := .HEAD,
    main_comfort_min := 16, main_comfort_max := 40 }
]

/-- The ordering used by `combo.sort(key=lambda x: x.get_discomfort(...))`
in `outfitter.py`. -/
def discomfort_le (temp_min temp_max rain_prob wind_speed : ℚ) (duration_hours : ℤ)
    (a b : Clothing) : Prop :=
  a.get_discomfort temp_min temp_max rain_prob wind_speed duration_hours
    ≤ b.get_discomfort temp_min temp_max rain_prob wind_speed duration_hours

instance discomfort_le_dec (temp_min temp_max rain_prob wind_speed : ℚ) (duration_hours : ℤ) :
    DecidableRel (discomfort_le temp_min temp_max rain_prob wind_speed duration_hours) :=
  fun a b => inferInstanceAs (Decidable
    (a.get_discomfort temp_min temp_max rain_prob wind_speed duration_hours
      ≤ b.get_discomfort temp_min temp_max rain_prob wind_speed duration_hours))

/-- The selection step of `get_optimized_outfit` for one body part:
`combo.sort(key=...); combo[0]`.  Indexing `[0]` on an empty list raises
`IndexError`, embedded as `none` via `head?`. -/
def select_best (temp_min temp_max rain_prob wind_speed : ℚ) (duration_hours : ℤ)
    (combos : List Clothing) : Option Clothing :=
  (List.insertionSort (discomfort_le temp_min temp_max rain_prob wind_speed duration_hours)
    combos).head?

/-- The body-part labels of the `combos` dict in `get_optimized_outfit`,
in source order. -/
def body_part_labels : List (String × BodyPart) :=
  [("Head", .HEAD), ("Upper Body", .UPPER), ("Lower Body", .LOWER),
   ("Hands", .HANDS), ("Feet", .FEET)]

/-- The loop of `get_optimized_outfit` over the parts: each part's valid
combinations are computed and the minimum-score one selected; any raised
`KeyError`/`IndexError` aborts the whole call (overall `none`). -/
def optimize_parts (clothing_items : List Clothing)
    (temp_min temp_max rain_prob wind_speed : ℚ) (duration_hours : ℤ) :
    List (String × BodyPart) → Option (List (String × Clothing))
  | [] => some []
  | (name, part) :: rest =>
    match ClothingWardrobe.valid_combinations_for_part clothing_items part with
    | none => none
    | some combos =>
      match select_best temp_min temp_max rain_prob wind_speed duration_hours combos with
      | none => none
      | some sel =>
        match optimize_parts clothing_items temp_min temp_max rain_prob wind_speed
            duration_hours rest with
        | none => none
        | some outfit => some ((name, sel) :: outfit)

/-- `get_optimized_outfit` of `outfitter.py`, generalized over the
wardrobe it draws from (the source always passes `WARDROBE` via
`get_clothing_wardrobe()`); conditions are passed already resolved, as
the source extracts them from the forecast before the loop. -/
def get_optimized_outfit_with (clothing_items : List Clothing)
    (temp_min temp_max rain_prob wind_speed : ℚ) (duration_hours : ℤ) :
    Option (List (String × Clothing)) :=
  optimize_parts clothing_items temp_min temp_max rain_prob wind_speed duration_hours
    body_part_labels

/-- `get_optimized_outfit` of `outfitter.py` on the reference catalog. -/
def get_optimized_outfit (temp_min temp_max rain_prob wind_speed : ℚ) (duration_hours : ℤ) :
    Option (List (String × Clothing)) :=
  get_optimized_outfit_with WARDROBE temp_min temp_max rain_prob wind_speed duration_hours

/-! ### Specification-side decomposition of the discomfort formula (for C2) -/

/-- Spec: cold penality term, `(item.min - cond.temp_min)^2` scaled by
`0.33 + duration/3`, only when `cond.temp_min < item.min`. -/
def cold_penalty_spec (item : Clothing) (temp_min : ℚ) (duration_hours : ℤ) : ℚ :=
  if temp_min < item.main_comfort_min then
    (item.main_comfort_min - temp_min) ^ 2 * (33 / 100 + (duration_hours : ℚ) / 3)
  else 0

/-- Spec: warm penalty term, unscaled, only when the cold branch did not
trigger and `cond.temp_max > item.max`. -/
def warm_penalty_spec (item : Clothing) (temp_min temp_max : ℚ) : ℚ :=
  if ¬ temp_min < item.main_comfort_min ∧ temp_max > item.main_comfort_max then
    (temp_max - item.main_comfort_max) ^ 2
  else 0

/-- Spec: rain penalty `0.75 × rain_probability` unless waterproof. -/
def rain_penalty_spec (item : Clothing) (rain_prob : ℚ) : ℚ :=
  if item.waterproof then 0 else 3 / 4 * rain_prob

/-- Spec: wind penalty `0.5 × max_wind_speed` unless windproof. -/
def wind_penalty_spec (item : Clothing) (wind_speed : ℚ) : ℚ :=
  if item.windproof then 0 else 1 / 2 * wind_speed

/-- Spec: complexity penalty `5 × complexity`. -/
def complexity_penalty_spec (item : Clothing) : ℚ := 5 * item.complexity

/-- Spec: removability bonus `-4.5` if removable. -/
def removable_bonus_spec (item : Clothing) : ℚ := if item.removable then -(9 / 2) else 0

/-! ### Concrete fixtures used by counterexamples and witnesses -/

/-- The scenario item of the spec: `main_comfort_min=5, main_comfort_max=15,
waterproof, windproof, complexity=2, not removable`. -/
def scenario_item : Clothing :=
  { name := "Thermal Jacket", layer_type := .OUTER, body_part := .UPPER,
    main_comfort_min := 5, main_comfort_max := 15, waterproof := true, windproof := true,
    removable := false, complexity := 2 }

/-- `InnerA(shift_min=-4)` of the C5 scenario. -/
def innerA_item : Clothing :=
  { name := "InnerA", layer_type := .INNER, body_part := .UPPER, temp_shift_min := -4 }

/-- `OuterB(main_min=10, windproof=false, wind_boost=0.5)` of the C5 scenario. -/
def outerB_item : Clothing :=
  { name := "OuterB", layer_type := .OUTER, body_part := .UPPER, main_comfort_min := 10,
    windproof := false, wind_boost := 1/2 }

/-- `AccessoryC(wind_boost=0.5)` of the C5 scenario. -/
def accessoryC_item : Clothing :=
  { name := "AccessoryC", layer_type := .ACCESSORY, body_part := .UPPER, wind_boost := 1/2 }

/-- The composed result of the C5 scenario combination. -/
def layered_composed : Clothing :=
  { name := "AccessoryC + InnerA + OuterB", layer_type := .OUTER, body_part := .UPPER,
    main_comfort_min := 6, main_comfort_max := 35, temp_shift_min := 0, temp_shift_max := 0,
    wind_boost := 1, waterproof := false, windproof := true, removable := false,
    complexity := 3 }

/-- A MID item leaving every default in place, so its own
`main_comfort_min` holds the unset sentinel `50` and its
`main_comfort_max` the sentinel `0`. -/
def plain_mid_item : Clothing :=
  { name := "Plain Mid", layer_type := .MID, body_part := .UPPER }

/-- What composing `[plain_mid_item]` actually produces: the min sentinel
`50` survives, only the max sentinel `0` is replaced by `35`. -/
def plain_mid_composed : Clothing :=
  { name := "Plain Mid", layer_type := .MID, body_part := .UPPER,
    main_comfort_min := 50, main_comfort_max := 35, temp_shift_min := 0, temp_shift_max := 0,
    wind_boost := 0, waterproof := false, windproof := false, removable := false,
    complexity := 1 }

/-- A catalog whose single FEET item is an accessory. -/
def acc_only_wardrobe : List Clothing :=
  [{ name := "Toe Covers", layer_type := .ACCESSORY, body_part := .FEET,
     temp_shift_min := -2, temp_shift_max := -1, wind_boost := 1/2, removable := true,
     complexity := 1/2 }]

/-- A lone UPPER mid-layer item (its composed singleton equals itself). -/
def upper_mid_item : Clothing :=
  { name := "Jersey", layer_type := .MID, body_part := .UPPER, main_comfort_min := 10,
    main_comfort_max := 20 }

/-- A catalog with items only for the UPPER body part. -/
def single_mid_wardrobe : List Clothing := [upper_mid_item]

/-- A removable, fully protected HEAD mid-layer. -/
def headband_item : Clothing :=
  { name := "Headband", layer_type := .MID, body_part := .HEAD, main_comfort_min := 5,
    main_comfort_max := 18, waterproof := true, windproof := true, removable := true }

/-- An unprotected HEAD mid-layer with a higher comfort range. -/
def barehead_item : Clothing :=
  { name := "Bare Head", layer_type := .MID, body_part := .HEAD, main_comfort_min := 16,
    main_comfort_max := 40 }

/-- A lone LOWER mid-layer item. -/
def lower_mid_item : Clothing :=
  { name := "Bibs", layer_type := .MID, body_part := .LOWER, main_comfort_min := 10,
    main_comfort_max := 20 }

/-- A lone HANDS mid-layer item. -/
def hands_mid_item : Clothing :=
  { name := "Gloves", layer_type := .MID, body_part := .HANDS, main_comfort_min := 10,
    main_comfort_max := 20 }

/-- A lone FEET mid-layer item. -/
def feet_mid_item : Clothing :=
  { name := "Shoes", layer_type := .MID, body_part := .FEET, main_comfort_min := 10,
    main_comfort_max := 20 }

/-- A catalog with two HEAD candidates and one mid-layer per other part. -/
def two_head_wardrobe : List Clothing :=
  [headband_item, barehead_item, upper_mid_item, lower_mid_item, hands_mid_item, feet_mid_item]

/-- A catalog whose UPPER part holds only an accessory (so that part has
catalog items but zero valid combinations), while every other part has a
usable mid-layer. -/
def no_upper_combo_wardrobe : List Clothing :=
  [{ name := "Arm Warmers", layer_type := .ACCESSORY, body_part := .UPPER,
     temp_shift_min := -3, temp_shift_max := -2, wind_boost := 1/2, removable := true },
   headband_item, lower_mid_item, hands_mid_item, feet_mid_item]

instance layer_le_total : IsTotal Clothing layer_le :=
  ⟨fun a b => Nat.le_total a.layer_type.value b.layer_type.value⟩

instance layer_le_trans : IsTrans Clothing layer_le :=
  ⟨fun _ _ _ hab hbc => Nat.le_trans hab hbc⟩

/-! ### Helper lemmas -/

lemma dropLast_append_of_getLast? {α : Type _} :
    ∀ (l : List α) (x : α), l.getLast? = some x → l.dropLast ++ [x] = l
  | [], x, h => by simp at h
  | [a], x, h => by simp_all
  | a :: b :: t, x, h => by
    have ih := dropLast_append_of_getLast? (b :: t) x (by simpa using h)
    simpa using ih

lemma mem_of_getLast?_eq {α : Type _} {l : List α} {x : α} (h : l.getLast? = some x) :
    x ∈ l := by
  have := dropLast_append_of_getLast? l x h
  rw [← this]
  simp

lemma pairwise_getLast?_max {α : Type _} (R : α → α → Prop) :
    ∀ (l : List α) (x : α), l.Pairwise R → l.getLast? = some x →
      ∀ y ∈ l, R y x ∨ y = x
  | [], x, _, hx, y, hy => by simp at hy
  | [a], x, _, hx, y, hy => by
    simp at hx hy
    subst hx hy
    exact Or.inr rfl
  | a :: b :: t, x, hp, hx, y, hy => by
    have hx' : (b :: t).getLast? = some x := by simpa using hx
    have hxmem : x ∈ b :: t := mem_of_getLast?_eq hx'
    rcases List.mem_cons.mp hy with rfl | hy'
    · exact Or.inl ((List.pairwise_cons.mp hp).1 x hxmem)
    · exact pairwise_getLast?_max R (b :: t) x (List.pairwise_cons.mp hp).2 hx' y hy'

lemma pair_sublist_of_mem {α : Type _} {a b : α} :
    ∀ {l : List α}, a ∈ l → b ∈ l → a ≠ b →
      (List.Sublist [a, b] l ∨ List.Sublist [b, a] l)
  | [], ha, _, _ => by simp at ha
  | x :: xs, ha, hb, hne => by
    rcases List.mem_cons.mp ha with rfl | ha'
    · rcases List.mem_cons.mp hb with rfl | hb'
      · exact absurd rfl hne
      · exact Or.inl (List.cons_sublist_cons.mpr (List.singleton_sublist.mpr hb'))
    · rcases List.mem_cons.mp hb with rfl | hb'
      · exact Or.inr (List.cons_sublist_cons.mpr (List.singleton_sublist.mpr ha'))
      · rcases pair_sublist_of_mem ha' hb' hne with h | h
        · exact Or.inl (h.cons x)
        · exact Or.inr (h.cons x)

/-- The selected item of `select_best` belongs to the candidate list and
scores no worse than any candidate. -/
lemma select_best_spec (temp_min temp_max rain_prob wind_speed : ℚ) (duration_hours : ℤ)
    (combos : List Clothing) (sel : Clothing)
    (hs : select_best temp_min temp_max rain_prob wind_speed duration_hours combos = some sel) :
    sel ∈ combos ∧ ∀ c ∈ combos,
      sel.get_discomfort temp_min temp_max rain_prob wind_speed duration_hours
        ≤ c.get_discomfort temp_min temp_max rain_prob wind_speed duration_hours := by
  classical
  haveI : IsTotal Clothing (discomfort_le temp_min temp_max rain_prob wind_speed duration_hours) :=
    ⟨fun a b => le_total _ _⟩
  haveI : IsTrans Clothing (discomfort_le temp_min temp_max rain_prob wind_speed duration_hours) :=
    ⟨fun _ _ _ hab hbc => le_trans hab hbc⟩
  unfold select_best at hs
  set R := discomfort_le temp_min temp_max rain_prob wind_speed duration_hours with hR
  have hsorted := List.sorted_insertionSort R combos
  have hperm := List.perm_insertionSort R combos
  cases hL : List.insertionSort R combos with
  | nil => rw [hL] at hs; simp at hs
  | cons hd tl =>
    rw [hL] at hs hsorted hperm
    simp at hs
    subst hs
    constructor
    · exact hperm.mem_iff.mp (List.mem_cons_self _ _)
    · intro c hc
      rcases List.mem_cons.mp (hperm.mem_iff.mpr hc) with rfl | hc'
      · exact le_refl _
      · exact (List.pairwise_cons.mp hsorted).1 c hc'

lemma mem_candidate_subsets {items s : List Clothing} :
    s ∈ candidate_subsets items ↔ List.Sublist s items ∧ s ≠ [] := by
  unfold candidate_subsets
  simp only [List.mem_flatMap, List.mem_range, List.mem_sublistsLen]
  constructor
  · rintro ⟨r, hr, hsub, hlen⟩
    refine ⟨hsub, ?_⟩
    intro hnil
    rw [hnil] at hlen
    simp at hlen
  · rintro ⟨hsub, hne⟩
    have h1 : 1 ≤ s.length := List.length_pos.mpr hne
    have h2 : s.length ≤ items.length := hsub.length_le
    exact ⟨s.length - 1, by omega, hsub, by omega⟩

lemma length_filter_pos_iff_exists {s : List Clothing} {p : Clothing → Bool} :
    0 < (s.filter p).length ↔ ∃ c ∈ s, p c = true := by
  rw [List.length_pos]
  constructor
  · intro hne
    cases hf : s.filter p with
    | nil => exact absurd hf hne
    | cons a t =>
      have ha : a ∈ s.filter p := by rw [hf]; exact List.mem_cons_self _ _
      have := List.mem_filter.mp ha
      exact ⟨a, this.1, this.2⟩
  · rintro ⟨c, hc, hpc⟩ hf
    have : c ∈ s.filter p := List.mem_filter.mpr ⟨hc, hpc⟩
    rw [hf] at this
    simp at this

lemma valid_combo_filter_spec {s : List Clothing} (h : valid_combo_filter s = true) :
    (s.filter (fun c => c.layer_type = LayerType.OUTER)).length ≤ 1 ∧
    (s.filter (fun c => c.layer_type = LayerType.MID)).length ≤ 1 ∧
    (s.filter (fun c => c.layer_type = LayerType.INNER)).length ≤ 1 ∧
    (∃ c ∈ s, c.layer_type = LayerType.MID ∨ c.layer_type = LayerType.OUTER) ∧
    ((∃ c ∈ s, c.layer_type = LayerType.OUTER) →
      ∃ c ∈ s, c.layer_type = LayerType.INNER ∨ c.layer_type = LayerType.MID) := by
  simp only [valid_combo_filter] at h
  split_ifs at h with h1 h2 h3
  simp only [Bool.or_eq_true, decide_eq_true_eq, not_or] at h1
  simp only [Bool.not_eq_true', List.any_eq_false] at h2
  simp only [Bool.and_eq_true, decide_eq_true_eq, not_and] at h3
  obtain ⟨⟨ho1, hm1⟩, hi1⟩ := h1
  refine ⟨by omega, by omega, by omega, ?_, ?_⟩
  · by_contra hmain
    push_neg at hmain
    apply h2
    intro c hc
    simpa using hmain c hc
  · rintro ⟨c, hc, hcl⟩
    have houter : 0 < (s.filter (fun c => c.layer_type = LayerType.OUTER)).length :=
      length_filter_pos_iff_exists.mpr ⟨c, hc, by simp [hcl]⟩
    have hni : ¬((s.filter (fun c => c.layer_type = LayerType.INNER)).length < 1 ∧
        (s.filter (fun c => c.layer_type = LayerType.MID)).length < 1) := by
      intro hcontra
      exact h3 ⟨by omega, by simpa using hcontra.1⟩ (by simpa using hcontra.2)
    rcases Nat.lt_or_ge (s.filter (fun c => c.layer_type = LayerType.INNER)).length 1 with
      hlt | hge
    · have hmid : 0 < (s.filter (fun c => c.layer_type = LayerType.MID)).length := by
        by_contra hmle
        exact hni ⟨hlt, by omega⟩
      obtain ⟨m, hm, hml⟩ := length_filter_pos_iff_exists.mp hmid
      exact ⟨m, hm, Or.inr (by simpa using hml)⟩
    · have hpos : 0 < (s.filter (fun c => c.layer_type = LayerType.INNER)).length := by omega
      obtain ⟨i, hi, hil⟩ := length_filter_pos_iff_exists.mp hpos
      exact ⟨i, hi, Or.inl (by simpa using hil)⟩

/-- Reduction of the composer once the sorted list's last element is known. -/
lemma get_clothing_item_equivalent_eq {combo_items : List Clothing} {outer : Clothing}
    (h : (List.insertionSort layer_le combo_items).getLast? = some outer) :
    ClothingCombo.get_clothing_item_equivalent combo_items = some
      { name := String.intercalate " + "
          ((List.insertionSort layer_le combo_items).map (fun i => i.name))
        layer_type := outer.layer_type
        body_part := outer.body_part
        main_comfort_min := (if outer.main_comfort_min = 0 then 15 else outer.main_comfort_min)
          + (((List.insertionSort layer_le combo_items).dropLast.map
              (fun i => i.temp_shift_min)).sum)
        main_comfort_max := (if outer.main_comfort_max = 0 then 35 else outer.main_comfort_max)
          + (((List.insertionSort layer_le combo_items).dropLast.map
              (fun i => i.temp_shift_max)).sum)
        temp_shift_min := 0
        temp_shift_max := 0
        wind_boost := outer.wind_boost + (((List.insertionSort layer_le combo_items).dropLast.map
          (fun i => i.wind_boost)).sum)
        waterproof := outer.waterproof ||
          (List.insertionSort layer_le combo_items).dropLast.any (fun i => i.waterproof)
        windproof := if outer.wind_boost + (((List.insertionSort layer_le combo_items).dropLast.map
            (fun i => i.wind_boost)).sum) ≥ 9 / 10 then true
          else outer.windproof ||
            (List.insertionSort layer_le combo_items).dropLast.any (fun i => i.windproof)
        removable := outer.removable ||
          (List.insertionSort layer_le combo_items).dropLast.any (fun i => i.removable)
        complexity := outer.complexity +
          (((List.insertionSort layer_le combo_items).dropLast.map
            (fun i => i.complexity)).sum) } := by
  simp only [ClothingCombo.get_clothing_item_equivalent]
  rw [h]

/-- The sum of a field over a combination equals the outer item's value
plus the sum over the remaining (sorted, last-dropped) items. -/
lemma sum_field_split (f : Clothing → ℚ) {combo_items : List Clothing} {outer : Clothing}
    (h : (List.insertionSort layer_le combo_items).getLast? = some outer) :
    (combo_items.map f).sum =
      ((List.insertionSort layer_le combo_items).dropLast.map f).sum + f outer := by
  have hsplit := dropLast_append_of_getLast? _ _ h
  have hperm : List.Perm (List.insertionSort layer_le combo_items) combo_items :=
    List.perm_insertionSort _ _
  calc (combo_items.map f).sum
      = ((List.insertionSort layer_le combo_items).map f).sum :=
        ((hperm.map f).sum_eq).symm
    _ = (((List.insertionSort layer_le combo_items).dropLast ++ [outer]).map f).sum := by
        rw [hsplit]
    _ = ((List.insertionSort layer_le combo_items).dropLast.map f).sum + f outer := by
        rw [List.map_append, List.sum_append]
        simp

/-- A composed combination always exists for a non-empty item list. -/
lemma get_clothing_item_equivalent_isSome {combo_items : List Clothing}
    (h : combo_items ≠ []) :
    ∃ outer c, (List.insertionSort layer_le combo_items).getLast? = some outer ∧
      ClothingCombo.get_clothing_item_equivalent combo_items = some c := by
  have hne : List.insertionSort layer_le combo_items ≠ [] := by
    intro habs
    have := List.length_insertionSort layer_le combo_items
    rw [habs] at this
    simp at this
    exact h (List.eq_nil_of_length_eq_zero this.symm)
  cases hL : (List.insertionSort layer_le combo_items).getLast? with
  | none => exact absurd (List.getLast?_eq_none_iff.mp hL) hne
  | some outer => exact ⟨outer, _, rfl, get_clothing_item_equivalent_eq hL⟩

/-- Each entry of a successful `optimize_parts` run is the `select_best`
result over that body part's valid combinations. -/
lemma optimize_parts_spec (clothing_items : List Clothing)
    (temp_min temp_max rain_prob wind_speed : ℚ) (duration_hours : ℤ) :
    ∀ (labels : List (String × BodyPart)) (outfit : List (String × Clothing)) (i : ℕ)
      (name name2 : String) (part : BodyPart) (sel : Clothing),
      optimize_parts clothing_items temp_min temp_max rain_prob wind_speed duration_hours
        labels = some outfit →
      labels.get? i = some (name, part) →
      outfit.get? i = some (name2, sel) →
      ∃ combos,
        ClothingWardrobe.valid_combinations_for_part clothing_items part = some combos ∧
        select_best temp_min temp_max rain_prob wind_speed duration_hours combos = some sel
  | [], outfit, i, name, name2, part, sel, hopt, hlab, hout => by simp at hlab
  | (n, p) :: rest, outfit, i, name, name2, part, sel, hopt, hlab, hout => by
    rw [optimize_parts] at hopt
    cases hv : ClothingWardrobe.valid_combinations_for_part clothing_items p with
    | none => simp [hv] at hopt
    | some combos =>
      simp only [hv] at hopt
      cases hsel : select_best temp_min temp_max rain_prob wind_speed duration_hours combos with
      | none => simp [hsel] at hopt
      | some sel0 =>
        simp only [hsel] at hopt
        cases hrest : optimize_parts clothing_items temp_min temp_max rain_prob wind_speed
            duration_hours rest with
        | none => simp [hrest] at hopt
        | some outfit' =>
          simp only [hrest, Option.some.injEq] at hopt
          subst hopt
          cases i with
          | zero =>
            simp only [List.get?] at hlab hout
            injection hlab with hlab'
            injection hout with hout'
            injection hlab' with hn hp
            injection hout' with hn2 hsel2
            subst hp
            subst hsel2
            exact ⟨combos, hv, hsel⟩
          | succ j =>
            simp only [List.get?] at hlab hout
            exact optimize_parts_spec clothing_items temp_min temp_max rain_prob wind_speed
              duration_hours rest outfit' j name name2 part sel hrest hlab hout

/-! ### Claim theorems -/

/-- C2: the discomfort score equals the sum
`cold_penalty + warm_penalty + rain_penalty + wind_penalty +
complexity_penalty + removable_bonus` with the spec's branch conditions
(warm only when cold did not trigger, rain/wind only without protection),
and the spec scenario item at `temp_min=-2, temp_max=8, rain=0, wind=10,
duration=2` scores `17651/300 ≈ 58.83`. -/
theorem discomfort_score_decomposition :
    (∀ (item : Clothing) (temp_min temp_max rain_prob wind_speed : ℚ) (duration_hours : ℤ),
      item.get_discomfort temp_min temp_max rain_prob wind_speed duration_hours =
        cold_penalty_spec item temp_min duration_hours + warm_penalty_spec item temp_min temp_max
          + rain_penalty_spec item rain_prob + wind_penalty_spec item wind_speed
          + complexity_penalty_spec item + removable_bonus_spec item) ∧
    scenario_item.get_discomfort (-2) 8 0 10 2 = 17651 / 300 ∧
    |scenario_item.get_discomfort (-2) 8 0 10 2 - 5883 / 100| < 1 / 100 := by
  have hval : scenario_item.get_discomfort (-2) 8 0 10 2 = 17651 / 300 := by
    norm_num [Clothing.get_discomfort, scenario_item]
  refine ⟨?_, hval, ?_⟩
  · intro item temp_min temp_max rain_prob wind_speed duration_hours
    simp only [Clothing.get_discomfort, cold_penalty_spec, warm_penalty_spec, rain_penalty_spec,
      wind_penalty_spec, complexity_penalty_spec, removable_bonus_spec]
    split_ifs <;> simp_all
  · rw [hval, abs_lt]
    constructor <;> norm_num

/-- C6: with a strictly triggered cold penalty (`temp_min < item.min`),
the discomfort score is strictly increasing in the ride duration. -/
theorem discomfort_increasing_in_duration (item : Clothing)
    (temp_min temp_max rain_prob wind_speed : ℚ) (d1 d2 : ℤ)
    (hcold : temp_min < item.main_comfort_min) (hd : d1 < d2) :
    item.get_discomfort temp_min temp_max rain_prob wind_speed d1 <
      item.get_discomfort temp_min temp_max rain_prob wind_speed d2 := by
  simp only [Clothing.get_discomfort, if_pos hcold]
  have hC : 0 < (item.main_comfort_min - temp_min) ^ 2 :=
    pow_pos (show (0:ℚ) < item.main_comfort_min - temp_min by linarith) 2
  have hcast : (d1 : ℚ) < (d2 : ℚ) := by exact_mod_cast hd
  have hmul := mul_lt_mul_of_pos_left
    (show (33/100 + (d1:ℚ)/3) < 33/100 + (d2:ℚ)/3 by linarith) hC
  linarith

/-- Witness for C6 at the spec scenario item, durations 1 < 2. -/
theorem discomfort_increasing_in_duration_witness :
    ((-2 : ℚ) < scenario_item.main_comfort_min ∧ (1 : ℤ) < 2) ∧
    scenario_item.get_discomfort (-2) 8 0 10 1 < scenario_item.get_discomfort (-2) 8 0 10 2 :=
  ⟨⟨by decide, by decide⟩,
    discomfort_increasing_in_duration scenario_item (-2) 8 0 10 1 2 (by decide) (by decide)⟩

/-- C7: a waterproof item's score does not depend on the rain
probability, and a windproof item's score does not depend on the wind
speed. -/
theorem protection_invariance :
    (∀ (item : Clothing) (temp_min temp_max wind_speed r1 r2 : ℚ) (duration_hours : ℤ),
      item.waterproof = true →
      item.get_discomfort temp_min temp_max r1 wind_speed duration_hours =
        item.get_discomfort temp_min temp_max r2 wind_speed duration_hours) ∧
    (∀ (item : Clothing) (temp_min temp_max rain_prob w1 w2 : ℚ) (duration_hours : ℤ),
      item.windproof = true →
      item.get_discomfort temp_min temp_max rain_prob w1 duration_hours =
        item.get_discomfort temp_min temp_max rain_prob w2 duration_hours) := by
  constructor <;> intro item t1 t2 a b c d h <;> simp [Clothing.get_discomfort, h]

/-- Witness for C7 at the (waterproof and windproof) scenario item. -/
theorem protection_invariance_witness :
    scenario_item.waterproof = true ∧
    scenario_item.get_discomfort (-2) 8 0 10 2 = scenario_item.get_discomfort (-2) 8 100 10 2 ∧
    scenario_item.windproof = true ∧
    scenario_item.get_discomfort (-2) 8 0 10 2 = scenario_item.get_discomfort (-2) 8 0 55 2 :=
  ⟨rfl, protection_invariance.1 scenario_item (-2) 8 10 0 100 2 rfl,
   rfl, protection_invariance.2 scenario_item (-2) 8 0 10 55 2 rfl⟩

lemma layer_value_ge_two {lt : LayerType} (h : 2 ≤ lt.value) :
    lt = LayerType.MID ∨ lt = LayerType.OUTER := by
  cases lt with
  | ACCESSORY => exact absurd h (by decide)
  | INNER => exact absurd h (by decide)
  | MID => exact Or.inl rfl
  | OUTER => exact Or.inr rfl

/-- Each label of a successful `optimize_parts` run had a non-failing
combination lookup and selection. -/
lemma optimize_parts_mem (clothing_items : List Clothing)
    (temp_min temp_max rain_prob wind_speed : ℚ) (duration_hours : ℤ) :
    ∀ (labels : List (String × BodyPart)) (outfit : List (String × Clothing)),
      optimize_parts clothing_items temp_min temp_max rain_prob wind_speed duration_hours labels
        = some outfit →
      ∀ np ∈ labels, ∃ combos sel,
        ClothingWardrobe.valid_combinations_for_part clothing_items np.2 = some combos ∧
        select_best temp_min temp_max rain_prob wind_speed duration_hours combos = some sel
  | [], outfit, hopt, np, hnp => by simp at hnp
  | (n, p) :: rest, outfit, hopt, np, hnp => by
    rw [optimize_parts] at hopt
    cases hv : ClothingWardrobe.valid_combinations_for_part clothing_items p with
    | none => simp [hv] at hopt
    | some combos =>
      simp only [hv] at hopt
      cases hsel : select_best temp_min temp_max rain_prob wind_speed duration_hours combos with
      | none => simp [hsel] at hopt
      | some sel0 =>
        simp only [hsel] at hopt
        cases hrest : optimize_parts clothing_items temp_min temp_max rain_prob wind_speed
            duration_hours rest with
        | none => simp [hrest] at hopt
        | some outfit' =>
          rcases List.mem_cons.mp hnp with rfl | hnp'
          · exact ⟨combos, sel0, hv, hsel⟩
          · exact optimize_parts_mem clothing_items temp_min temp_max rain_prob wind_speed
              duration_hours rest outfit' hrest np hnp'

lemma compose_plain_mid :
    ClothingCombo.get_clothing_item_equivalent [plain_mid_item] = some plain_mid_composed := by
  norm_num [ClothingCombo.get_clothing_item_equivalent, plain_mid_item, plain_mid_composed,
    List.insertionSort, List.orderedInsert]
  rfl

lemma compose_layered :
    ClothingCombo.get_clothing_item_equivalent [innerA_item, outerB_item, accessoryC_item]
      = some layered_composed := by
  norm_num [ClothingCombo.get_clothing_item_equivalent, innerA_item, outerB_item,
    accessoryC_item, layered_composed, List.insertionSort, List.orderedInsert, layer_le,
    LayerType.value]
  rfl

/-- C5: a combination whose summed `wind_boost` reaches `0.9` composes to
a windproof synthetic item regardless of the members' own flags; the
spec's layering scenario composes to `main_comfort_min = 6` and
`windproof = true`. -/
theorem wind_boost_threshold_forces_windproof :
    (∀ (combo_items : List Clothing) (c : Clothing),
      ClothingCombo.get_clothing_item_equivalent combo_items = some c →
      (combo_items.map (fun i => i.wind_boost)).sum ≥ 9 / 10 →
      c.windproof = true) ∧
    (ClothingCombo.get_clothing_item_equivalent [innerA_item, outerB_item, accessoryC_item]
        = some layered_composed ∧
      layered_composed.main_comfort_min = 6 ∧ layered_composed.windproof = true) := by
  refine ⟨?_, compose_layered, rfl, rfl⟩
  intro combo_items c hc hsum
  cases hL : (List.insertionSort layer_le combo_items).getLast? with
  | none => simp [ClothingCombo.get_clothing_item_equivalent, hL] at hc
  | some outer =>
    rw [get_clothing_item_equivalent_eq hL] at hc
    injection hc with hc'
    subst hc'
    have hsum' := sum_field_split (fun i => i.wind_boost) hL
    have hcond : outer.wind_boost +
        ((List.insertionSort layer_le combo_items).dropLast.map (fun i => i.wind_boost)).sum
        ≥ 9 / 10 := by
      rw [hsum'] at hsum
      linarith
    show (if outer.wind_boost + ((List.insertionSort layer_le combo_items).dropLast.map
        (fun i => i.wind_boost)).sum ≥ 9 / 10 then true
      else outer.windproof ||
        (List.insertionSort layer_le combo_items).dropLast.any (fun i => i.windproof)) = true
    rw [if_pos hcond]

/-- Witness for C5's general threshold statement at the spec scenario. -/
theorem wind_boost_threshold_forces_windproof_witness :
    (ClothingCombo.get_clothing_item_equivalent [innerA_item, outerB_item, accessoryC_item]
        = some layered_composed ∧
      ([innerA_item, outerB_item, accessoryC_item].map (fun i => i.wind_boost)).sum ≥ 9 / 10) ∧
    layered_composed.windproof = true := by
  have hsum : ([innerA_item, outerB_item, accessoryC_item].map (fun i => i.wind_boost)).sum
      ≥ (9:ℚ) / 10 := by
    norm_num [innerA_item, outerB_item, accessoryC_item]
  exact ⟨⟨compose_layered, hsum⟩,
    wind_boost_threshold_forces_windproof.1 _ _ compose_layered hsum⟩

/-- C4 counterexample: an outer item whose `main_comfort_min` holds the
unset sentinel `50` is NOT replaced by the claimed default `15` — the
source's `or` substitutes on `0`, so the min sentinel passes through while
the max sentinel `0` does become `35`. -/
theorem min_sentinel_not_defaulted :
    plain_mid_item.main_comfort_min = 50 ∧ plain_mid_item.main_comfort_max = 0 ∧
    ClothingCombo.get_clothing_item_equivalent [plain_mid_item] = some plain_mid_composed ∧
    plain_mid_composed.main_comfort_min = 50 ∧
    ¬ plain_mid_composed.main_comfort_min = 15 ∧
    plain_mid_composed.main_comfort_max = 35 := by
  refine ⟨rfl, rfl, compose_plain_mid, rfl, ?_, rfl⟩
  norm_num [plain_mid_composed]

/-- C4 (amended): the sorted-last item's comfort range seeds the
effective range, with defaults `15`/`35` substituted exactly when the
outer's own `main_comfort_min`/`main_comfort_max` equal `0` (the Python
falsy check — so the max sentinel `0` is defaulted but the min sentinel
`50` survives); the remaining items' `temp_shift` deltas are then added. -/
theorem composer_outer_baseline_seeding (combo_items : List Clothing) (outer c : Clothing)
    (houter : (List.insertionSort layer_le combo_items).getLast? = some outer)
    (hc : ClothingCombo.get_clothing_item_equivalent combo_items = some c) :
    c.main_comfort_min = (if outer.main_comfort_min = 0 then 15 else outer.main_comfort_min)
        + ((combo_items.map (fun i => i.temp_shift_min)).sum - outer.temp_shift_min) ∧
    c.main_comfort_max = (if outer.main_comfort_max = 0 then 35 else outer.main_comfort_max)
        + ((combo_items.map (fun i => i.temp_shift_max)).sum - outer.temp_shift_max) := by
  rw [get_clothing_item_equivalent_eq houter] at hc
  injection hc with hc'
  subst hc'
  constructor
  · dsimp only
    rw [sum_field_split (fun i => i.temp_shift_min) houter]
    ring
  · dsimp only
    rw [sum_field_split (fun i => i.temp_shift_max) houter]
    ring

/-- Witness for C4's amended seeding rule on the all-default MID item. -/
theorem composer_outer_baseline_seeding_witness :
    ((List.insertionSort layer_le [plain_mid_item]).getLast? = some plain_mid_item ∧
      ClothingCombo.get_clothing_item_equivalent [plain_mid_item] = some plain_mid_composed) ∧
    plain_mid_composed.main_comfort_min
        = (if plain_mid_item.main_comfort_min = 0 then 15 else plain_mid_item.main_comfort_min)
          + (([plain_mid_item].map (fun i => i.temp_shift_min)).sum
              - plain_mid_item.temp_shift_min) ∧
    plain_mid_composed.main_comfort_max
        = (if plain_mid_item.main_comfort_max = 0 then 35 else plain_mid_item.main_comfort_max)
          + (([plain_mid_item].map (fun i => i.temp_shift_max)).sum
              - plain_mid_item.temp_shift_max) := by
  have h1 : (List.insertionSort layer_le [plain_mid_item]).getLast? = some plain_mid_item := rfl
  obtain ⟨hmin, hmax⟩ := composer_outer_baseline_seeding [plain_mid_item] plain_mid_item
    plain_mid_composed h1 compose_plain_mid
  exact ⟨⟨h1, compose_plain_mid⟩, hmin, hmax⟩

/-- C8 counterexample: a catalog with no HEAD item makes
`valid_combinations_for_part` fail (`KeyError`, embedded `none`) rather
than return an empty list. -/
theorem missing_part_lookup_is_error :
    ClothingWardrobe.grouped_clothing_items single_mid_wardrobe BodyPart.HEAD = [] ∧
    ClothingWardrobe.valid_combinations_for_part single_mid_wardrobe BodyPart.HEAD = none ∧
    ¬ ClothingWardrobe.valid_combinations_for_part single_mid_wardrobe BodyPart.HEAD
        = some [] := by
  refine ⟨rfl, rfl, ?_⟩
  have h2 : ClothingWardrobe.valid_combinations_for_part single_mid_wardrobe BodyPart.HEAD
      = none := rfl
  rw [h2]
  simp

/-- C8 (amended): a body part with zero catalog items makes the generator
raise (`KeyError`, embedded `none`); an empty combination *list* is
produced only when the part has items but no subset passes the rules. -/
theorem generator_empty_vs_missing_part :
    (∀ (clothing_items : List Clothing) (body_part : BodyPart),
      ClothingWardrobe.grouped_clothing_items clothing_items body_part = [] →
      ClothingWardrobe.valid_combinations_for_part clothing_items body_part = none) ∧
    ClothingWardrobe.valid_combinations_for_part acc_only_wardrobe BodyPart.FEET = some [] := by
  refine ⟨?_, rfl⟩
  intro w p h
  simp [ClothingWardrobe.valid_combinations_for_part, h]

/-- Witness for C8's amended statement on a wardrobe with no HEAD items. -/
theorem generator_empty_vs_missing_part_witness :
    ClothingWardrobe.grouped_clothing_items single_mid_wardrobe BodyPart.HEAD = [] ∧
    ClothingWardrobe.valid_combinations_for_part single_mid_wardrobe BodyPart.HEAD = none :=
  ⟨rfl, generator_empty_vs_missing_part.1 single_mid_wardrobe BodyPart.HEAD rfl⟩

/-- C9 counterexample: UPPER has a catalog item but zero valid
combinations; the whole optimization returns the error outcome `none`
(Python `IndexError` at `combo[0]`) — no per-part marker, and the other
parts' selections are lost with it. -/
theorem optimizer_aborts_on_empty_part :
    ClothingWardrobe.valid_combinations_for_part no_upper_combo_wardrobe BodyPart.UPPER
        = some [] ∧
    get_optimized_outfit_with no_upper_combo_wardrobe 10 15 0 5 2 = none :=
  ⟨rfl, rfl⟩

/-- C9 (amended): whenever any listed body part has an empty valid-combination list,
the optimizer aborts as a whole and returns no outfit at all. -/
theorem optimizer_none_of_empty_combos (clothing_items : List Clothing)
    (temp_min temp_max rain_prob wind_speed : ℚ) (duration_hours : ℤ)
    (name : String) (part : BodyPart)
    (hmem : (name, part) ∈ body_part_labels)
    (hempty : ClothingWardrobe.valid_combinations_for_part clothing_items part = some []) :
    get_optimized_outfit_with clothing_items temp_min temp_max rain_prob wind_speed
      duration_hours = none := by
  cases hres : get_optimized_outfit_with clothing_items temp_min temp_max rain_prob wind_speed
      duration_hours with
  | none => rfl
  | some outfit =>
    exfalso
    obtain ⟨combos, sel, hv, hsel⟩ := optimize_parts_mem clothing_items temp_min temp_max
      rain_prob wind_speed duration_hours body_part_labels outfit hres (name, part) hmem
    rw [hempty] at hv
    injection hv with hv'
    subst hv'
    simp [select_best, List.insertionSort] at hsel

/-- Witness for C9's amended statement on the accessory-only UPPER wardrobe. -/
theorem optimizer_none_of_empty_combos_witness :
    (("Upper Body", BodyPart.UPPER) ∈ body_part_labels ∧
      ClothingWardrobe.valid_combinations_for_part no_upper_combo_wardrobe BodyPart.UPPER
        = some []) ∧
    get_optimized_outfit_with no_upper_combo_wardrobe 10 15 0 5 2 = none :=
  ⟨⟨by simp [body_part_labels], rfl⟩,
    optimizer_none_of_empty_combos no_upper_combo_wardrobe 10 15 0 5 2 "Upper Body"
      BodyPart.UPPER (by simp [body_part_labels]) rfl⟩

lemma valid_combinations_eq_some {clothing_items : List Clothing} {part : BodyPart}
    {combos : List Clothing}
    (h : ClothingWardrobe.valid_combinations_for_part clothing_items part = some combos) :
    combos = (accepted_subsets
        (ClothingWardrobe.grouped_clothing_items clothing_items part)).filterMap
      ClothingCombo.get_clothing_item_equivalent := by
  simp only [ClothingWardrobe.valid_combinations_for_part] at h
  split_ifs at h
  injection h with h'
  exact h'.symm

/-- C10: every item the generator returns carries the requested body part,
and its layer type — inherited from the sorted-last (outer-baseline)
member — is MID or OUTER, never ACCESSORY or INNER. -/
theorem composed_item_part_and_main_layer (clothing_items : List Clothing) (part : BodyPart)
    (combos : List Clothing) (c : Clothing)
    (hcombos : ClothingWardrobe.valid_combinations_for_part clothing_items part = some combos)
    (hc : c ∈ combos) :
    c.body_part = part ∧ (c.layer_type = LayerType.MID ∨ c.layer_type = LayerType.OUTER) := by
  rw [valid_combinations_eq_some hcombos] at hc
  obtain ⟨s, hs, hcomp⟩ := List.mem_filterMap.mp hc
  have hs' := List.mem_filter.mp hs
  have hsub := (mem_candidate_subsets.mp hs'.1).1
  have hvalid := valid_combo_filter_spec hs'.2
  have hbp : ∀ y ∈ s, y.body_part = part := by
    intro y hy
    have hy' : y ∈ ClothingWardrobe.grouped_clothing_items clothing_items part :=
      hsub.subset hy
    simpa using (List.mem_filter.mp hy').2
  cases hL : (List.insertionSort layer_le s).getLast? with
  | none => simp [ClothingCombo.get_clothing_item_equivalent, hL] at hcomp
  | some outer =>
    rw [get_clothing_item_equivalent_eq hL] at hcomp
    injection hcomp with hcomp'
    subst hcomp'
    have houter_s : outer ∈ s :=
      (List.perm_insertionSort layer_le s).mem_iff.mp (mem_of_getLast?_eq hL)
    refine ⟨hbp outer houter_s, ?_⟩
    obtain ⟨m, hm, hml⟩ := hvalid.2.2.2.1
    have hm_sorted : m ∈ List.insertionSort layer_le s :=
      (List.perm_insertionSort layer_le s).mem_iff.mpr hm
    have hsorted : (List.insertionSort layer_le s).Pairwise layer_le :=
      List.sorted_insertionSort layer_le s
    rcases pairwise_getLast?_max layer_le _ outer hsorted hL m hm_sorted with hle | heq
    · have h2 : 2 ≤ m.layer_type.value := by
        rcases hml with h | h <;> simp [h, LayerType.value]
      exact layer_value_ge_two (le_trans h2 hle)
    · rw [← heq]
      exact hml

lemma single_mid_combos :
    ClothingWardrobe.valid_combinations_for_part single_mid_wardrobe BodyPart.UPPER
      = some [upper_mid_item] := by
  norm_num [ClothingWardrobe.valid_combinations_for_part, single_mid_wardrobe, upper_mid_item,
    ClothingWardrobe.grouped_clothing_items, accepted_subsets, candidate_subsets,
    valid_combo_filter, ClothingCombo.get_clothing_item_equivalent,
    List.insertionSort, List.orderedInsert, List.sublistsLen, List.filterMap]
  rfl

/-- Witness for C10 on a one-item wardrobe (the composed singleton equals
the item itself). -/
theorem composed_item_part_and_main_layer_witness :
    (ClothingWardrobe.valid_combinations_for_part single_mid_wardrobe BodyPart.UPPER
        = some [upper_mid_item] ∧ upper_mid_item ∈ [upper_mid_item]) ∧
    upper_mid_item.body_part = BodyPart.UPPER ∧
    (upper_mid_item.layer_type = LayerType.MID ∨ upper_mid_item.layer_type = LayerType.OUTER) :=
  ⟨⟨single_mid_combos, by simp⟩,
    composed_item_part_and_main_layer single_mid_wardrobe BodyPart.UPPER [upper_mid_item]
      upper_mid_item single_mid_combos (by simp)⟩

/-- C3 counterexample: FEET has one catalog item (an accessory alone),
yet the generator returns zero combinations — "at least one catalog
item" does not guarantee "at least one combination". -/
theorem accessory_only_part_has_no_combination :
    (ClothingWardrobe.grouped_clothing_items acc_only_wardrobe BodyPart.FEET).length = 1 ∧
    ClothingWardrobe.valid_combinations_for_part acc_only_wardrobe BodyPart.FEET = some [] :=
  ⟨rfl, rfl⟩

/-- C3 (amended): for a body part whose catalog holds a MID item, or both
an OUTER and an INNER item, the generator returns at least one
combination whose main layer is MID or OUTER; and every accepted subset
has at most one OUTER/MID/INNER, has a MID-or-OUTER main item, and an
OUTER only together with an INNER or MID. -/
theorem combination_generator_layer_rules (clothing_items : List Clothing) (part : BodyPart) :
    (((∃ m ∈ ClothingWardrobe.grouped_clothing_items clothing_items part,
          m.layer_type = LayerType.MID) ∨
        ((∃ o ∈ ClothingWardrobe.grouped_clothing_items clothing_items part,
            o.layer_type = LayerType.OUTER) ∧
          (∃ j ∈ ClothingWardrobe.grouped_clothing_items clothing_items part,
            j.layer_type = LayerType.INNER))) →
      ∃ combos, ClothingWardrobe.valid_combinations_for_part clothing_items part = some combos ∧
        ∃ c ∈ combos, c.layer_type = LayerType.MID ∨ c.layer_type = LayerType.OUTER) ∧
    (∀ s ∈ accepted_subsets (ClothingWardrobe.grouped_clothing_items clothing_items part),
      (s.filter (fun c => c.layer_type = LayerType.OUTER)).length ≤ 1 ∧
      (s.filter (fun c => c.layer_type = LayerType.MID)).length ≤ 1 ∧
      (s.filter (fun c => c.layer_type = LayerType.INNER)).length ≤ 1 ∧
      (∃ c ∈ s, c.layer_type = LayerType.MID ∨ c.layer_type = LayerType.OUTER) ∧
      ((∃ c ∈ s, c.layer_type = LayerType.OUTER) →
        ∃ c ∈ s, c.layer_type = LayerType.INNER ∨ c.layer_type = LayerType.MID)) := by
  constructor
  · rintro (⟨m, hm, hml⟩ | ⟨⟨o, ho, hol⟩, ⟨j, hj, hjl⟩⟩)
    · have hne : ClothingWardrobe.grouped_clothing_items clothing_items part ≠ [] := by
        intro h0
        rw [h0] at hm
        simp at hm
      refine ⟨(accepted_subsets
          (ClothingWardrobe.grouped_clothing_items clothing_items part)).filterMap
          ClothingCombo.get_clothing_item_equivalent, ?_, ?_⟩
      · simp only [ClothingWardrobe.valid_combinations_for_part]
        rw [if_neg hne]
      · have hsub : List.Sublist [m]
            (ClothingWardrobe.grouped_clothing_items clothing_items part) :=
          List.singleton_sublist.mpr hm
        have hcand : [m] ∈ candidate_subsets
            (ClothingWardrobe.grouped_clothing_items clothing_items part) :=
          mem_candidate_subsets.mpr ⟨hsub, by simp⟩
        have hfilter : valid_combo_filter [m] = true := by
          simp [valid_combo_filter, hml]
        have hL : (List.insertionSort layer_le [m]).getLast? = some m := rfl
        exact ⟨_, List.mem_filterMap.mpr ⟨[m], List.mem_filter.mpr ⟨hcand, hfilter⟩,
          get_clothing_item_equivalent_eq hL⟩, Or.inl hml⟩
    · have hne : ClothingWardrobe.grouped_clothing_items clothing_items part ≠ [] := by
        intro h0
        rw [h0] at ho
        simp at ho
      have hjo : j ≠ o := by
        intro heq
        rw [heq, hol] at hjl
        exact absurd hjl (by decide)
      refine ⟨(accepted_subsets
          (ClothingWardrobe.grouped_clothing_items clothing_items part)).filterMap
          ClothingCombo.get_clothing_item_equivalent, ?_, ?_⟩
      · simp only [ClothingWardrobe.valid_combinations_for_part]
        rw [if_neg hne]
      · rcases pair_sublist_of_mem hj ho hjo with hsub | hsub
        · have hcand : [j, o] ∈ candidate_subsets
              (ClothingWardrobe.grouped_clothing_items clothing_items part) :=
            mem_candidate_subsets.mpr ⟨hsub, by simp⟩
          have hfilter : valid_combo_filter [j, o] = true := by
            simp [valid_combo_filter, hjl, hol]
          have hL : (List.insertionSort layer_le [j, o]).getLast? = some o := by
            simp [List.insertionSort, List.orderedInsert, layer_le, hjl, hol, LayerType.value]
          exact ⟨_, List.mem_filterMap.mpr ⟨[j, o], List.mem_filter.mpr ⟨hcand, hfilter⟩,
            get_clothing_item_equivalent_eq hL⟩, Or.inr hol⟩
        · have hcand : [o, j] ∈ candidate_subsets
              (ClothingWardrobe.grouped_clothing_items clothing_items part) :=
            mem_candidate_subsets.mpr ⟨hsub, by simp⟩
          have hfilter : valid_combo_filter [o, j] = true := by
            simp [valid_combo_filter, hjl, hol]
          have hL : (List.insertionSort layer_le [o, j]).getLast? = some o := by
            simp [List.insertionSort, List.orderedInsert, layer_le, hjl, hol, LayerType.value]
          exact ⟨_, List.mem_filterMap.mpr ⟨[o, j], List.mem_filter.mpr ⟨hcand, hfilter⟩,
            get_clothing_item_equivalent_eq hL⟩, Or.inr hol⟩
  · intro s hs
    exact valid_combo_filter_spec (List.mem_filter.mp hs).2

/-- Witness for C3's amended rules on a one-MID wardrobe. -/
theorem combination_generator_layer_rules_witness :
    ClothingWardrobe.valid_combinations_for_part single_mid_wardrobe BodyPart.UPPER ≠ none ∧
    ([upper_mid_item].filter (fun c => c.layer_type = LayerType.OUTER)).length ≤ 1 := by
  constructor
  · obtain ⟨combos, hcombos, -⟩ :=
      (combination_generator_layer_rules single_mid_wardrobe BodyPart.UPPER).1
        (Or.inl ⟨upper_mid_item, by decide, rfl⟩)
    rw [hcombos]
    simp
  · exact ((combination_generator_layer_rules single_mid_wardrobe BodyPart.UPPER).2
      [upper_mid_item] (by decide)).1

/-- C1: whenever the optimizer returns an outfit, the item it pairs with
each body-part label is one of that part's valid combinations and scores
no higher than any other valid combination for the same part under the
same conditions. -/
theorem optimizer_selects_minimum (clothing_items : List Clothing)
    (temp_min temp_max rain_prob wind_speed : ℚ) (duration_hours : ℤ)
    (outfit : List (String × Clothing)) (i : ℕ) (name name2 : String) (part : BodyPart)
    (sel : Clothing) (combos : List Clothing) (c : Clothing)
    (hopt : get_optimized_outfit_with clothing_items temp_min temp_max rain_prob wind_speed
      duration_hours = some outfit)
    (hlab : body_part_labels.get? i = some (name, part))
    (hout : outfit.get? i = some (name2, sel))
    (hcombos : ClothingWardrobe.valid_combinations_for_part clothing_items part = some combos)
    (hc : c ∈ combos) :
    sel ∈ combos ∧
    sel.get_discomfort temp_min temp_max rain_prob wind_speed duration_hours ≤
      c.get_discomfort temp_min temp_max rain_prob wind_speed duration_hours := by
  obtain ⟨combos', hcombos', hsel⟩ := optimize_parts_spec clothing_items temp_min temp_max
    rain_prob wind_speed duration_hours body_part_labels outfit i name name2 part sel hopt
    hlab hout
  rw [hcombos] at hcombos'
  injection hcombos' with h'
  subst h'
  obtain ⟨hmem, hall⟩ := select_best_spec temp_min temp_max rain_prob wind_speed duration_hours
    _ sel hsel
  exact ⟨hmem, hall c hc⟩

lemma two_head_head_combos :
    ClothingWardrobe.valid_combinations_for_part two_head_wardrobe BodyPart.HEAD
      = some [barehead_item, headband_item] := by
  norm_num +decide [ClothingWardrobe.valid_combinations_for_part, two_head_wardrobe,
    ClothingWardrobe.grouped_clothing_items, accepted_subsets, candidate_subsets,
    valid_combo_filter, ClothingCombo.get_clothing_item_equivalent,
    List.insertionSort, List.orderedInsert, List.sublistsLen, List.filterMap, List.filter,
    headband_item, barehead_item, upper_mid_item, lower_mid_item, hands_mid_item, feet_mid_item]

lemma two_head_outfit :
    get_optimized_outfit_with two_head_wardrobe 10 15 0 5 2 = some
      [("Head", headband_item), ("Upper Body", upper_mid_item), ("Lower Body", lower_mid_item),
       ("Hands", hands_mid_item), ("Feet", feet_mid_item)] := by
  norm_num +decide [get_optimized_outfit_with, optimize_parts, body_part_labels, select_best,
    discomfort_le, Clothing.get_discomfort,
    ClothingWardrobe.valid_combinations_for_part, two_head_wardrobe,
    ClothingWardrobe.grouped_clothing_items, accepted_subsets, candidate_subsets,
    valid_combo_filter, ClothingCombo.get_clothing_item_equivalent,
    List.insertionSort, List.orderedInsert, List.sublistsLen, List.filterMap, List.filter,
    headband_item, barehead_item, upper_mid_item, lower_mid_item, hands_mid_item, feet_mid_item]

/-- Witness for C1 on a wardrobe whose HEAD part has two candidates: the
optimizer pairs "Head" with the headband, which scores no worse than the
bare-head alternative. -/
theorem optimizer_selects_minimum_witness :
    (get_optimized_outfit_with two_head_wardrobe 10 15 0 5 2 = some
        [("Head", headband_item), ("Upper Body", upper_mid_item), ("Lower Body", lower_mid_item),
         ("Hands", hands_mid_item), ("Feet", feet_mid_item)] ∧
      ClothingWardrobe.valid_combinations_for_part two_head_wardrobe BodyPart.HEAD
        = some [barehead_item, headband_item]) ∧
    headband_item ∈ [barehead_item, headband_item] ∧
    headband_item.get_discomfort 10 15 0 5 2 ≤ barehead_item.get_discomfort 10 15 0 5 2 := by
  obtain ⟨hm, hle⟩ := optimizer_selects_minimum two_head_wardrobe 10 15 0 5 2
    [("Head", headband_item), ("Upper Body", upper_mid_item), ("Lower Body", lower_mid_item),
     ("Hands", hands_mid_item), ("Feet", feet_mid_item)] 0 "Head" "Head" BodyPart.HEAD
    headband_item [barehead_item, headband_item] barehead_item two_head_outfit rfl rfl
    two_head_head_combos (by simp)
  exact ⟨⟨two_head_outfit, two_head_head_combos⟩, hm, hle⟩
